import Mathlib

/-!
Shallow embedding of the inventory-and-cart service implemented in
`src/app.controller.ts` (NestJS controller over a Prisma store) together with
the relational schema of `schema.prisma` and its SQL migrations.

Modelling conventions:
* `String` ids of the source (UUIDs) become `Nat` ids drawn from a fresh-id
  counter `nextId` carried in the store state; the store generates ids on
  creation exactly as `@default(uuid())` does.
* `preco` is a JavaScript number used as a decimal price; it is modelled as
  `ℚ`.  `estoque` and `quantidade` are `Int` (Prisma `Int` columns).
* The class-validator decorators on the DTOs (`@IsNotEmpty`, `@Min(0.01)`,
  `@Min(0)`, `@Min(1)`, `@IsOptional`) are the request-validation boundary;
  an operation invoked with a DTO failing them is rejected with a 400 before
  the controller body runs, which the embedding models by an explicit
  validity check at the head of each operation.
* Thrown `HttpException`s become an `Err` value carrying the exception's
  message; errors Prisma itself raises (unique-index or foreign-key
  violations that the controller does not catch) become `Err.storeError`.
* Each controller method maps the store state to a new state plus a result,
  `Store → Store × Except Err α`.  State mutations committed before a later
  failure (such as the lazily created cart) persist in the returned state,
  exactly as in the source where `obterOuCriarCarrinho` commits outside any
  transaction.
-/

namespace AluraCart

/-- Produto row of `model Produto` in schema.prisma: id (PK), nome (unique),
preco, estoque. -/
structure Produto where
  id : Nat
  nome : String
  preco : ℚ
  estoque : Int
deriving DecidableEq

/-- Carrinho row of `model Carrinho`: id (PK), usuarioId (unique). -/
structure Carrinho where
  id : Nat
  usuarioId : String
deriving DecidableEq

/-- ItemCarrinho row of `model ItemCarrinho`: id (PK), quantidade, produtoId
(FK → Produto), carrinhoId (FK → Carrinho), with a unique index on
(produtoId, carrinhoId). -/
structure ItemCarrinho where
  id : Nat
  quantidade : Int
  produtoId : Nat
  carrinhoId : Nat
deriving DecidableEq

/-- The relational store: the three tables plus the id generator. -/
structure Store where
  produtos : List Produto
  carrinhos : List Carrinho
  itens : List ItemCarrinho
  nextId : Nat
deriving DecidableEq

/-- Errors surfaced to the caller: `conflict` = ConflictException (409),
`notFound` = NotFoundException (404), `badRequest` = BadRequestException
(400, used both for invalid input and for insufficient stock), and
`storeError` = an error Prisma throws that the controller does not catch
(unique-index or foreign-key violation, surfacing as a 500). -/
inductive Err where
  | conflict (mensagem : String)
  | notFound (mensagem : String)
  | badRequest (mensagem : String)
  | storeError (mensagem : String)
deriving DecidableEq

/-- The `@Min(0.01)` lower bound on `preco`. -/
def precoMinimo : ℚ := mkRat 1 100

/-- CriarProdutoDto: nome (string, not empty), preco (number ≥ 0.01),
estoque (number ≥ 0). -/
structure CriarProdutoDto where
  nome : String
  preco : ℚ
  estoque : Int
deriving DecidableEq

/-- Validity of a CriarProdutoDto per its class-validator decorators. -/
def CriarProdutoDto.valido (d : CriarProdutoDto) : Bool :=
  d.nome != "" && decide (precoMinimo ≤ d.preco) && decide ((0 : Int) ≤ d.estoque)

/-- AtualizarProdutoDto: every field optional, each validated as in
CriarProdutoDto when present. -/
structure AtualizarProdutoDto where
  nome : Option String
  preco : Option ℚ
  estoque : Option Int
deriving DecidableEq

/-- Validity of an AtualizarProdutoDto: each supplied field must satisfy the
same decorator as on creation; absent fields are not checked
(`@IsOptional`). -/
def AtualizarProdutoDto.valido (d : AtualizarProdutoDto) : Bool :=
  (match d.nome with
   | some n => n != ""
   | none => true) &&
  (match d.preco with
   | some q => decide (precoMinimo ≤ q)
   | none => true) &&
  (match d.estoque with
   | some e => decide ((0 : Int) ≤ e)
   | none => true)

/-- The `Object.keys(dadosParaAtualizar).length === 0` test: no field was
supplied. -/
def AtualizarProdutoDto.vazio (d : AtualizarProdutoDto) : Bool :=
  d.nome.isNone && d.preco.isNone && d.estoque.isNone

/-- AdicionarItemDto: produtoId plus quantidade with `@Min(1)`. -/
structure AdicionarItemDto where
  produtoId : Nat
  quantidade : Int
deriving DecidableEq

/-- Validity of an AdicionarItemDto: quantidade ≥ 1. -/
def AdicionarItemDto.valido (d : AdicionarItemDto) : Bool :=
  decide ((1 : Int) ≤ d.quantidade)

/-- The fixed simulated cart owner (`private readonly usuarioId =
'usuario-123'`). -/
def usuarioFixo : String := "usuario-123"

/-- `prisma.produto.findUnique({ where: { id } })`. -/
def findProduto (s : Store) (id : Nat) : Option Produto :=
  s.produtos.find? (fun p => p.id == id)

/-- `prisma.produto.findUnique({ where: { nome } })`. -/
def findProdutoPorNome (s : Store) (nome : String) : Option Produto :=
  s.produtos.find? (fun p => p.nome == nome)

/-- `prisma.carrinho.findUnique({ where: { usuarioId } })`. -/
def findCarrinho (s : Store) : Option Carrinho :=
  s.carrinhos.find? (fun c => c.usuarioId == usuarioFixo)

/-- Lookup of the line item keyed by the unique pair (produtoId, carrinhoId);
used both by the upsert's `where` clause and by
`carrinho.itens.find((i) => i.produtoId === produtoId)` (the two coincide
because a cart's items are exactly the rows with its carrinhoId). -/
def findItem (s : Store) (produtoId carrinhoId : Nat) : Option ItemCarrinho :=
  s.itens.find? (fun i => i.produtoId == produtoId && i.carrinhoId == carrinhoId)

/-- POST /produtos (`criarProduto`): reject an invalid DTO at the validation
boundary; 409 if a product with the same nome exists; otherwise insert a new
row with a fresh id and return it. -/
def criarProduto (s : Store) (dto : CriarProdutoDto) : Store × Except Err Produto :=
  if !dto.valido then
    (s, Except.error (Err.badRequest "Dados inválidos."))
  else
    match findProdutoPorNome s dto.nome with
    | some _ => (s, Except.error (Err.conflict "Já existe um produto com este nome."))
    | none =>
        let p : Produto := ⟨s.nextId, dto.nome, dto.preco, dto.estoque⟩
        ({ s with produtos := s.produtos ++ [p], nextId := s.nextId + 1 }, Except.ok p)

/-- Application of a partial update: exactly the supplied fields replace the
row's fields (`prisma.produto.update({ data: dadosParaAtualizar })`). -/
def aplicarAtualizacao (p : Produto) (d : AtualizarProdutoDto) : Produto :=
  { p with
    nome := d.nome.getD p.nome
    preco := d.preco.getD p.preco
    estoque := d.estoque.getD p.estoque }

/-- Whether updating row `id` to nome `n` would collide with the unique index
`Produto_nome_key` on another row. -/
def nomeColide (s : Store) (id : Nat) (n : String) : Bool :=
  s.produtos.any (fun q => q.nome == n && q.id != id)

/-- PUT /produtos/:id (`atualizarProduto`): reject an invalid DTO; 404 if the
id is absent (via `buscarProdutoPorId`); 400 if no field was supplied; then
`prisma.produto.update`, which the store rejects with a unique-index
violation when a supplied nome collides with a different row, and otherwise
applies exactly the supplied fields. -/
def atualizarProduto (s : Store) (id : Nat) (d : AtualizarProdutoDto) :
    Store × Except Err Produto :=
  if !d.valido then
    (s, Except.error (Err.badRequest "Dados inválidos."))
  else
    match findProduto s id with
    | none =>
        (s, Except.error (Err.notFound
          ("Produto com ID " ++ toString id ++ " não encontrado.")))
    | some p =>
        if d.vazio then
          (s, Except.error (Err.badRequest
            "Pelo menos um campo deve ser fornecido para atualização."))
        else if (match d.nome with
                 | some n => nomeColide s id n
                 | none => false) then
          (s, Except.error (Err.storeError "Unique constraint failed: Produto_nome_key"))
        else
          let p' := aplicarAtualizacao p d
          ({ s with produtos := s.produtos.map (fun q => if q.id == id then p' else q) },
           Except.ok p')

/-- DELETE /produtos/:id (`removerProduto`): 404 if absent (via
`buscarProdutoPorId`); then `prisma.produto.delete`, which the store rejects
with a foreign-key violation when an ItemCarrinho row still references the
product (`ItemCarrinho_produtoId_fkey ... ON DELETE RESTRICT` in the
migration), and otherwise removes the row. -/
def removerProduto (s : Store) (id : Nat) : Store × Except Err Unit :=
  match findProduto s id with
  | none =>
      (s, Except.error (Err.notFound
        ("Produto com ID " ++ toString id ++ " não encontrado.")))
  | some _ =>
      if s.itens.any (fun i => i.produtoId == id) then
        (s, Except.error (Err.storeError
          "Foreign key constraint failed: ItemCarrinho_produtoId_fkey"))
      else
        ({ s with produtos := s.produtos.filter (fun p => p.id != id) }, Except.ok ())

/-- `obterOuCriarCarrinho`: find the fixed owner's cart, creating (and
committing) an empty one when none exists.  Returns the updated store and the
cart. -/
def obterOuCriarCarrinho (s : Store) : Store × Carrinho :=
  match findCarrinho s with
  | some c => (s, c)
  | none =>
      let c : Carrinho := ⟨s.nextId, usuarioFixo⟩
      ({ s with carrinhos := s.carrinhos ++ [c], nextId := s.nextId + 1 }, c)

/-- `prisma.produto.update({ data: { estoque: { decrement: q } } })`: an
unconditional decrement of the row with the given id. -/
def decrementarEstoque (s : Store) (id : Nat) (q : Int) : Store :=
  { s with produtos :=
      s.produtos.map (fun p => if p.id == id then { p with estoque := p.estoque - q } else p) }

/-- `prisma.produto.update({ data: { estoque: { increment: q } } })`. -/
def incrementarEstoque (s : Store) (id : Nat) (q : Int) : Store :=
  { s with produtos :=
      s.produtos.map (fun p => if p.id == id then { p with estoque := p.estoque + q } else p) }

/-- The `itens.upsert` keyed by (produtoId, carrinhoId): increment the
existing line's quantidade, or create a fresh line with the given
quantidade. -/
def upsertItem (s : Store) (produtoId carrinhoId : Nat) (quantidade : Int) : Store :=
  match findItem s produtoId carrinhoId with
  | some i =>
      { s with itens :=
          s.itens.map (fun j =>
            if j.id == i.id then { j with quantidade := j.quantidade + quantidade } else j) }
  | none =>
      { s with
        itens := s.itens ++ [⟨s.nextId, quantidade, produtoId, carrinhoId⟩]
        nextId := s.nextId + 1 }

/-- The batched `$transaction` of `adicionarItem`: the stock decrement and
the line upsert, applied atomically. -/
def transacaoAdicionar (s : Store) (dto : AdicionarItemDto) (carrinhoId : Nat) : Store :=
  upsertItem (decrementarEstoque s dto.produtoId dto.quantidade)
    dto.produtoId carrinhoId dto.quantidade

/-- The pre-transaction validation of `adicionarItem` (lines 228-241 of the
controller), read against the store state at the time of the check: 404 when
the product is absent, 400 with the product's nome and available estoque in
the message when estoque < quantidade, and no error otherwise. -/
def checagemAdicionar (s : Store) (dto : AdicionarItemDto) : Option Err :=
  match findProduto s dto.produtoId with
  | none =>
      some (Err.notFound
        ("Produto com ID " ++ toString dto.produtoId ++ " não encontrado."))
  | some produto =>
      if produto.estoque < dto.quantidade then
        some (Err.badRequest
          ("Estoque insuficiente para \"" ++ produto.nome ++ "\". Disponível: "
            ++ toString produto.estoque ++ "."))
      else
        none

/-- One line of the formatted cart response. -/
structure ItemView where
  produtoId : Nat
  nome : String
  quantidade : Int
  precoUnitario : ℚ
  totalItem : ℚ
deriving DecidableEq

/-- The formatted cart response. -/
structure CarrinhoView where
  id : Nat
  usuarioId : String
  itens : List ItemView
  total : ℚ
deriving DecidableEq

/-- The cart's lines joined with their products, as produced by
`include: { itens: { include: { produto: true } } }`: every ItemCarrinho row
with the cart's id, paired with the Produto row it references. -/
def itensDoCarrinho (s : Store) (carrinhoId : Nat) : List (ItemCarrinho × Produto) :=
  (s.itens.filter (fun i => i.carrinhoId == carrinhoId)).filterMap
    (fun i => (findProduto s i.produtoId).map (fun p => (i, p)))

/-- `formatarCarrinho`: project each loaded line into (produtoId, nome,
quantidade, precoUnitario, totalItem = quantidade * preco) and reduce the
lines into a cart-level total, exactly as the source's `reduce` with
accumulator 0. -/
def formatarCarrinho (s : Store) (c : Carrinho) : CarrinhoView :=
  { id := c.id
    usuarioId := c.usuarioId
    itens := (itensDoCarrinho s c.id).map (fun x =>
      ⟨x.1.produtoId, x.2.nome, x.1.quantidade, x.2.preco,
        (x.1.quantidade : ℚ) * x.2.preco⟩)
    total := (itensDoCarrinho s c.id).foldl
      (fun acc x => acc + (x.1.quantidade : ℚ) * x.2.preco) 0 }

/-- POST /carrinho/adicionar (`adicionarItem`): reject an invalid DTO; get or
create (and commit) the cart; run the pre-transaction validation; on success
apply the stock decrement plus line upsert as one transaction and return the
reloaded formatted cart. -/
def adicionarItem (s : Store) (dto : AdicionarItemDto) :
    Store × Except Err CarrinhoView :=
  if !dto.valido then
    (s, Except.error (Err.badRequest "A quantidade deve ser de no mínimo 1."))
  else
    match checagemAdicionar (obterOuCriarCarrinho s).1 dto with
    | some e => ((obterOuCriarCarrinho s).1, Except.error e)
    | none =>
        (transacaoAdicionar (obterOuCriarCarrinho s).1 dto (obterOuCriarCarrinho s).2.id,
         Except.ok (formatarCarrinho
           (transacaoAdicionar (obterOuCriarCarrinho s).1 dto (obterOuCriarCarrinho s).2.id)
           (obterOuCriarCarrinho s).2))

/-- GET /carrinho (`verCarrinho`): get or create the cart and return its
formatted view. -/
def verCarrinho (s : Store) : Store × CarrinhoView :=
  ((obterOuCriarCarrinho s).1,
   formatarCarrinho (obterOuCriarCarrinho s).1 (obterOuCriarCarrinho s).2)

/-- The batched `$transaction` of `removerItem`: increment the product's
estoque by the line's full quantidade and delete the line. -/
def transacaoRemover (s : Store) (produtoId : Nat) (item : ItemCarrinho) : Store :=
  { incrementarEstoque s produtoId item.quantidade with
    itens := (incrementarEstoque s produtoId item.quantidade).itens.filter
      (fun i => i.id != item.id) }

/-- DELETE /carrinho/remover/:produtoId (`removerItem`): get or create the
cart; 404 when the product has no line in it; otherwise atomically restore
the line's full quantidade to the product's estoque and delete the line
(the batched `$transaction`, modelled by `transacaoRemover`), returning the
reloaded formatted cart. -/
def removerItem (s : Store) (produtoId : Nat) : Store × Except Err CarrinhoView :=
  match findItem (obterOuCriarCarrinho s).1 produtoId (obterOuCriarCarrinho s).2.id with
  | none =>
      ((obterOuCriarCarrinho s).1, Except.error (Err.notFound
        ("Produto com ID " ++ toString produtoId ++ " não está no carrinho.")))
  | some item =>
      (transacaoRemover (obterOuCriarCarrinho s).1 produtoId item,
       Except.ok (formatarCarrinho
         (transacaoRemover (obterOuCriarCarrinho s).1 produtoId item)
         (obterOuCriarCarrinho s).2))

/-- A committed API operation. -/
inductive Op where
  | criar (dto : CriarProdutoDto)
  | atualizar (id : Nat) (dto : AtualizarProdutoDto)
  | remover (id : Nat)
  | adicionar (dto : AdicionarItemDto)
  | removerDoCarrinho (produtoId : Nat)
  | ver
deriving DecidableEq

/-- The state reached after one committed operation (the result value is
discarded; failed operations keep whatever state they committed). -/
def step (s : Store) : Op → Store
  | Op.criar dto => (criarProduto s dto).1
  | Op.atualizar id dto => (atualizarProduto s id dto).1
  | Op.remover id => (removerProduto s id).1
  | Op.adicionar dto => (adicionarItem s dto).1
  | Op.removerDoCarrinho produtoId => (removerItem s produtoId).1
  | Op.ver => (verCarrinho s).1

/-- The state after a sequence of committed operations. -/
def run (s : Store) (ops : List Op) : Store :=
  ops.foldl step s

/-- The available stock of product `pid`: the estoque of its row, 0 when the
row is absent. -/
def estoqueDe (s : Store) (pid : Nat) : Int :=
  ((findProduto s pid).map Produto.estoque).getD 0

/-- The stock reserved for product `pid`: the sum of quantidade over all cart
lines referencing it. -/
def reservado (s : Store) (pid : Nat) : Int :=
  ((s.itens.filter (fun i => i.produtoId == pid)).map ItemCarrinho.quantidade).sum

/-- Well-formedness of a store state, as guaranteed by the schema (primary
keys, unique indexes, foreign keys, fresh-id generation) together with the
DTO validation: nonnegative stock, positive line quantities, distinct row
ids, the unique (produtoId, carrinhoId) index, and every id below the
fresh-id counter. -/
def Inv (s : Store) : Prop :=
  (∀ p ∈ s.produtos, 0 ≤ p.estoque) ∧
  (∀ i ∈ s.itens, 1 ≤ i.quantidade) ∧
  (s.produtos.map Produto.id).Nodup ∧
  (s.itens.map ItemCarrinho.id).Nodup ∧
  s.itens.Pairwise (fun i j => i.produtoId ≠ j.produtoId ∨ i.carrinhoId ≠ j.carrinhoId) ∧
  (∀ p ∈ s.produtos, p.id < s.nextId) ∧
  (∀ c ∈ s.carrinhos, c.id < s.nextId) ∧
  (∀ i ∈ s.itens, i.id < s.nextId) ∧
  (∀ i ∈ s.itens, i.carrinhoId < s.nextId) ∧
  (∀ i ∈ s.itens, ∃ p ∈ s.produtos, p.id = i.produtoId)

instance (s : Store) : Decidable (Inv s) := by
  unfold Inv
  infer_instance

/-! Shape lemmas: which parts of the state each primitive leaves untouched. -/

theorem produtos_obterOuCriar (s : Store) :
    (obterOuCriarCarrinho s).1.produtos = s.produtos := by
  unfold obterOuCriarCarrinho
  cases findCarrinho s <;> rfl

theorem itens_obterOuCriar (s : Store) :
    (obterOuCriarCarrinho s).1.itens = s.itens := by
  unfold obterOuCriarCarrinho
  cases findCarrinho s <;> rfl

theorem nextId_obterOuCriar (s : Store) :
    s.nextId ≤ (obterOuCriarCarrinho s).1.nextId := by
  unfold obterOuCriarCarrinho
  cases findCarrinho s with
  | none => exact Nat.le_succ _
  | some c => exact Nat.le_refl _

theorem findCarrinho_obterOuCriar (s : Store) :
    findCarrinho (obterOuCriarCarrinho s).1 = some (obterOuCriarCarrinho s).2 := by
  unfold obterOuCriarCarrinho
  cases h : findCarrinho s with
  | some c => simpa using h
  | none =>
      show List.find? _ (s.carrinhos ++ [⟨s.nextId, usuarioFixo⟩]) = _
      rw [List.find?_append, show List.find? (fun c => c.usuarioId == usuarioFixo) s.carrinhos
        = none from h]
      rfl

theorem carrinho_obterOuCriar_id_lt (s : Store) (h : Inv s) :
    (obterOuCriarCarrinho s).2.id < (obterOuCriarCarrinho s).1.nextId := by
  obtain ⟨-, -, -, -, -, -, hc, -, -, -⟩ := h
  unfold obterOuCriarCarrinho
  cases hf : findCarrinho s with
  | some c => exact hc c (List.mem_of_find?_eq_some hf)
  | none => exact Nat.lt_succ_self _

theorem produtos_upsert (s : Store) (pid cid : Nat) (q : Int) :
    (upsertItem s pid cid q).produtos = s.produtos := by
  unfold upsertItem
  cases findItem s pid cid <;> rfl

theorem carrinhos_upsert (s : Store) (pid cid : Nat) (q : Int) :
    (upsertItem s pid cid q).carrinhos = s.carrinhos := by
  unfold upsertItem
  cases findItem s pid cid <;> rfl

theorem itens_decrementar (s : Store) (pid : Nat) (q : Int) :
    (decrementarEstoque s pid q).itens = s.itens := rfl

theorem itens_incrementar (s : Store) (pid : Nat) (q : Int) :
    (incrementarEstoque s pid q).itens = s.itens := rfl

/-! Lookup lemmas for maps that only change non-key fields. -/

theorem findProduto_id {s : Store} {pid : Nat} {p : Produto}
    (h : findProduto s pid = some p) : p.id = pid := by
  have := List.find?_some (show s.produtos.find? (fun x => x.id == pid) = some p from h)
  simpa using this

theorem findProduto_mem {s : Store} {pid : Nat} {p : Produto}
    (h : findProduto s pid = some p) : p ∈ s.produtos :=
  List.mem_of_find?_eq_some (show s.produtos.find? (fun x => x.id == pid) = some p from h)

theorem find?_map_estoque (l : List Produto) (pid pid' : Nat) (g : Produto → Int) :
    (l.map (fun p => if p.id == pid then { p with estoque := g p } else p)).find?
        (fun p => p.id == pid')
      = (l.find? (fun p => p.id == pid')).map
          (fun p => if p.id == pid then { p with estoque := g p } else p) := by
  have hfun : ((fun p : Produto => p.id == pid') ∘
      fun p => if p.id == pid then { p with estoque := g p } else p)
      = fun p : Produto => p.id == pid' := by
    funext p
    by_cases h : p.id == pid <;> simp [Function.comp, h]
  rw [List.find?_map, hfun]

theorem findProduto_decrementar (s : Store) (pid q pid') :
    findProduto (decrementarEstoque s pid q) pid'
      = (findProduto s pid').map
          (fun p => if p.id == pid then { p with estoque := p.estoque - q } else p) := by
  unfold findProduto decrementarEstoque
  exact find?_map_estoque s.produtos pid pid' (fun p => p.estoque - q)

theorem findProduto_incrementar (s : Store) (pid q pid') :
    findProduto (incrementarEstoque s pid q) pid'
      = (findProduto s pid').map
          (fun p => if p.id == pid then { p with estoque := p.estoque + q } else p) := by
  unfold findProduto incrementarEstoque
  exact find?_map_estoque s.produtos pid pid' (fun p => p.estoque + q)

theorem findProduto_decrementar_self (s : Store) (pid : Nat) (q : Int) (p : Produto)
    (h : findProduto s pid = some p) :
    findProduto (decrementarEstoque s pid q) pid
      = some { p with estoque := p.estoque - q } := by
  have hid : p.id = pid := findProduto_id h
  rw [findProduto_decrementar, h]
  simp [hid]

theorem findProduto_incrementar_self (s : Store) (pid : Nat) (q : Int) (p : Produto)
    (h : findProduto s pid = some p) :
    findProduto (incrementarEstoque s pid q) pid
      = some { p with estoque := p.estoque + q } := by
  have hid : p.id = pid := findProduto_id h
  rw [findProduto_incrementar, h]
  simp [hid]

theorem estoqueDe_decrementar_other (s : Store) (pid q pid') (hne : pid' ≠ pid) :
    estoqueDe (decrementarEstoque s pid q) pid' = estoqueDe s pid' := by
  unfold estoqueDe
  rw [findProduto_decrementar]
  cases h : findProduto s pid' with
  | none => rfl
  | some p =>
      have hid : p.id = pid' := findProduto_id h
      have hpp : p.id ≠ pid := by
        rw [hid]
        exact hne
      simp [hpp]

theorem estoqueDe_incrementar_other (s : Store) (pid q pid') (hne : pid' ≠ pid) :
    estoqueDe (incrementarEstoque s pid q) pid' = estoqueDe s pid' := by
  unfold estoqueDe
  rw [findProduto_incrementar]
  cases h : findProduto s pid' with
  | none => rfl
  | some p =>
      have hid : p.id = pid' := findProduto_id h
      have hpp : p.id ≠ pid := by
        rw [hid]
        exact hne
      simp [hpp]

/-! Reserved-quantity sums over lists of cart lines. -/

/-- Sum of the quantidade of the lines of `l` that reference product `pid`. -/
def somaQuant (l : List ItemCarrinho) (pid : Nat) : Int :=
  ((l.filter (fun i => i.produtoId == pid)).map ItemCarrinho.quantidade).sum

theorem reservado_eq_somaQuant (s : Store) (pid : Nat) :
    reservado s pid = somaQuant s.itens pid := rfl

theorem somaQuant_cons (x : ItemCarrinho) (l : List ItemCarrinho) (pid : Nat) :
    somaQuant (x :: l) pid
      = (if x.produtoId = pid then x.quantidade else 0) + somaQuant l pid := by
  unfold somaQuant
  by_cases h : x.produtoId = pid <;> simp [List.filter_cons, h]

theorem somaQuant_append_single (l : List ItemCarrinho) (x : ItemCarrinho) (pid : Nat) :
    somaQuant (l ++ [x]) pid
      = somaQuant l pid + (if x.produtoId = pid then x.quantidade else 0) := by
  unfold somaQuant
  by_cases h : x.produtoId = pid <;> simp [List.filter_append, List.filter_cons, h]

theorem findItem_fields {s : Store} {pid cid : Nat} {i : ItemCarrinho}
    (h : findItem s pid cid = some i) :
    i ∈ s.itens ∧ i.produtoId = pid ∧ i.carrinhoId = cid := by
  have hmem := List.mem_of_find?_eq_some
    (show s.itens.find? (fun j => j.produtoId == pid && j.carrinhoId == cid) = some i from h)
  have hp := List.find?_some
    (show s.itens.find? (fun j => j.produtoId == pid && j.carrinhoId == cid) = some i from h)
  simp only [Bool.and_eq_true, beq_iff_eq] at hp
  exact ⟨hmem, hp.1, hp.2⟩

theorem findItem_eq_none_iff {s : Store} {pid cid : Nat} :
    findItem s pid cid = none
      ↔ ∀ i ∈ s.itens, ¬(i.produtoId = pid ∧ i.carrinhoId = cid) := by
  unfold findItem
  rw [List.find?_eq_none]
  constructor
  · intro h i hi hcontra
    have := h i hi
    simp only [Bool.and_eq_true, beq_iff_eq] at this
    exact this ⟨hcontra.1, hcontra.2⟩
  · intro h i hi
    have := h i hi
    simp only [Bool.and_eq_true, beq_iff_eq]
    exact fun hc => this ⟨hc.1, hc.2⟩

theorem somaQuant_bump (l : List ItemCarrinho) (i₀ : ItemCarrinho) (q : Int) (pid : Nat)
    (hnd : (l.map ItemCarrinho.id).Nodup) (hmem : i₀ ∈ l) :
    somaQuant
        (l.map (fun j => if j.id == i₀.id then { j with quantidade := j.quantidade + q } else j))
        pid
      = somaQuant l pid + (if i₀.produtoId = pid then q else 0) := by
  induction l with
  | nil => cases hmem
  | cons x t ih =>
      rw [List.map_cons] at hnd ⊢
      rw [List.nodup_cons] at hnd
      rcases List.mem_cons.mp hmem with h0 | hmem'
      · subst h0
        have ht : t.map
            (fun j => if j.id == i₀.id then { j with quantidade := j.quantidade + q } else j)
            = t := by
          have hall : ∀ j ∈ t,
              (if j.id == i₀.id then { j with quantidade := j.quantidade + q } else j) = j := by
            intro j hj
            have hne : j.id ≠ i₀.id := by
              intro hcontra
              exact hnd.1 (hcontra ▸ List.mem_map_of_mem ItemCarrinho.id hj)
            simp [hne]
          rw [List.map_congr_left hall]
          exact List.map_id t
        rw [ht]
        simp only [beq_self_eq_true, if_true]
        rw [somaQuant_cons, somaQuant_cons]
        by_cases h : i₀.produtoId = pid <;> simp [h] <;> ring
      · have hx : x.id ≠ i₀.id := by
          intro hcontra
          exact hnd.1 (hcontra ▸ List.mem_map_of_mem ItemCarrinho.id hmem')
        rw [show (if x.id == i₀.id then { x with quantidade := x.quantidade + q } else x) = x by
          simp [hx]]
        rw [somaQuant_cons, somaQuant_cons, ih hnd.2 hmem']
        ring

theorem somaQuant_erase (l : List ItemCarrinho) (i₀ : ItemCarrinho) (pid : Nat)
    (hnd : (l.map ItemCarrinho.id).Nodup) (hmem : i₀ ∈ l) :
    somaQuant (l.filter (fun i => i.id != i₀.id)) pid
      = somaQuant l pid - (if i₀.produtoId = pid then i₀.quantidade else 0) := by
  induction l with
  | nil => cases hmem
  | cons x t ih =>
      rw [List.map_cons, List.nodup_cons] at hnd
      rcases List.mem_cons.mp hmem with h0 | hmem'
      · subst h0
        have ht : t.filter (fun i => i.id != i₀.id) = t := by
          rw [List.filter_eq_self]
          intro j hj
          have hne : j.id ≠ i₀.id := by
            intro hcontra
            exact hnd.1 (hcontra ▸ List.mem_map_of_mem ItemCarrinho.id hj)
          simpa using hne
        rw [List.filter_cons]
        simp only [bne_self_eq_false, Bool.false_eq_true, if_false, ht]
        rw [somaQuant_cons]
        by_cases h : i₀.produtoId = pid <;> simp [h]
      · have hx : x.id ≠ i₀.id := by
          intro hcontra
          exact hnd.1 (hcontra ▸ List.mem_map_of_mem ItemCarrinho.id hmem')
        rw [List.filter_cons]
        simp only [bne_iff_ne, ne_eq, hx, not_false_eq_true, if_true]
        rw [somaQuant_cons, somaQuant_cons, ih hnd.2 hmem']
        ring

/-! Consequences of DTO validity. -/

theorem CriarProdutoDto.valido_estoque {d : CriarProdutoDto} (h : d.valido = true) :
    0 ≤ d.estoque := by
  simp only [CriarProdutoDto.valido, Bool.and_eq_true, decide_eq_true_eq] at h
  exact h.2

theorem AtualizarProdutoDto.valido_estoque_opcional {d : AtualizarProdutoDto} {e : Int}
    (h : d.valido = true) (he : d.estoque = some e) : 0 ≤ e := by
  simp only [AtualizarProdutoDto.valido, Bool.and_eq_true] at h
  have := h.2
  rw [he] at this
  simpa using this

theorem AdicionarItemDto.valido_quantidade {d : AdicionarItemDto} (h : d.valido = true) :
    1 ≤ d.quantidade := by
  simpa [AdicionarItemDto.valido] using h

/-! Preservation of the store invariant by every operation. -/

theorem inv_obterOuCriar (s : Store) (h : Inv s) : Inv (obterOuCriarCarrinho s).1 := by
  obtain ⟨h1, h2, h3, h4, h5, h6, h7, h8, h9, h10⟩ := h
  unfold obterOuCriarCarrinho
  cases findCarrinho s with
  | some c => exact ⟨h1, h2, h3, h4, h5, h6, h7, h8, h9, h10⟩
  | none =>
      refine ⟨h1, h2, h3, h4, h5, ?_, ?_, ?_, ?_, h10⟩
      · intro p hp
        exact Nat.lt_succ_of_lt (h6 p hp)
      · intro c hc
        rcases List.mem_append.mp hc with hc' | hc'
        · exact Nat.lt_succ_of_lt (h7 c hc')
        · rw [List.mem_singleton.mp hc']
          exact Nat.lt_succ_self _
      · intro i hi
        exact Nat.lt_succ_of_lt (h8 i hi)
      · intro i hi
        exact Nat.lt_succ_of_lt (h9 i hi)

theorem inv_criarProduto (s : Store) (dto : CriarProdutoDto) (h : Inv s) :
    Inv (criarProduto s dto).1 := by
  obtain ⟨h1, h2, h3, h4, h5, h6, h7, h8, h9, h10⟩ := h
  unfold criarProduto
  by_cases hv : dto.valido
  · simp only [hv, Bool.not_true, Bool.false_eq_true, if_false]
    cases findProdutoPorNome s dto.nome with
    | some p => exact ⟨h1, h2, h3, h4, h5, h6, h7, h8, h9, h10⟩
    | none =>
        refine ⟨?_, h2, ?_, h4, h5, ?_, ?_, ?_, ?_, ?_⟩
        · intro p hp
          rcases List.mem_append.mp hp with hp' | hp'
          · exact h1 p hp'
          · rw [List.mem_singleton.mp hp']
            exact CriarProdutoDto.valido_estoque hv
        · rw [List.map_append]
          rw [List.nodup_append]
          refine ⟨h3, List.nodup_singleton _, ?_⟩
          intro a ha hb
          simp only [List.map_cons, List.map_nil, List.mem_singleton] at hb
          subst hb
          rcases List.mem_map.mp ha with ⟨p, hp, hid⟩
          exact absurd hid (Nat.ne_of_lt (h6 p hp))
        · intro p hp
          rcases List.mem_append.mp hp with hp' | hp'
          · exact Nat.lt_succ_of_lt (h6 p hp')
          · rw [List.mem_singleton.mp hp']
            exact Nat.lt_succ_self _
        · intro c hc
          exact Nat.lt_succ_of_lt (h7 c hc)
        · intro i hi
          exact Nat.lt_succ_of_lt (h8 i hi)
        · intro i hi
          exact Nat.lt_succ_of_lt (h9 i hi)
        · intro i hi
          rcases h10 i hi with ⟨p, hp, hid⟩
          exact ⟨p, List.mem_append_left _ hp, hid⟩
  · simp only [hv]
    exact ⟨h1, h2, h3, h4, h5, h6, h7, h8, h9, h10⟩

theorem inv_atualizar_mapa (s : Store) (id : Nat) (d : AtualizarProdutoDto) (p : Produto)
    (hv : d.valido = true) (hp : findProduto s id = some p) (h : Inv s) :
    Inv { s with produtos :=
      s.produtos.map (fun q => if q.id == id then aplicarAtualizacao p d else q) } := by
  obtain ⟨h1, h2, h3, h4, h5, h6, h7, h8, h9, h10⟩ := h
  have hpid : p.id = id := findProduto_id hp
  have hpmem : p ∈ s.produtos := findProduto_mem hp
  have hidpres : ∀ q ∈ s.produtos,
      (if q.id == id then aplicarAtualizacao p d else q).id = q.id := by
    intro q hq
    by_cases hc : q.id == id
    · rw [if_pos hc]
      show p.id = q.id
      rw [hpid]
      exact (beq_iff_eq.mp hc).symm
    · rw [if_neg hc]
  have hmapid : (s.produtos.map
      (fun q => if q.id == id then aplicarAtualizacao p d else q)).map Produto.id
      = s.produtos.map Produto.id := by
    rw [List.map_map]
    exact List.map_congr_left (fun q hq => hidpres q hq)
  refine ⟨?_, h2, ?_, h4, h5, ?_, h7, h8, h9, ?_⟩
  · intro r hr
    rcases List.mem_map.mp hr with ⟨q, hq, hrq⟩
    subst hrq
    by_cases hc : q.id == id
    · rw [if_pos hc]
      show 0 ≤ (aplicarAtualizacao p d).estoque
      unfold aplicarAtualizacao
      cases he : d.estoque with
      | none => simpa [he] using h1 p hpmem
      | some e => simpa [he] using AtualizarProdutoDto.valido_estoque_opcional hv he
    · rw [if_neg hc]
      exact h1 q hq
  · show ((s.produtos.map _).map Produto.id).Nodup
    rw [hmapid]
    exact h3
  · intro r hr
    rcases List.mem_map.mp hr with ⟨q, hq, hrq⟩
    subst hrq
    show (if q.id == id then aplicarAtualizacao p d else q).id < s.nextId
    rw [hidpres q hq]
    exact h6 q hq
  · intro i hi
    rcases h10 i hi with ⟨p₀, hp₀, hid₀⟩
    refine ⟨if p₀.id == id then aplicarAtualizacao p d else p₀,
      List.mem_map_of_mem _ hp₀, ?_⟩
    rw [hidpres p₀ hp₀]
    exact hid₀

theorem inv_atualizarProduto (s : Store) (id : Nat) (d : AtualizarProdutoDto) (h : Inv s) :
    Inv (atualizarProduto s id d).1 := by
  unfold atualizarProduto
  by_cases hv : d.valido
  · simp only [hv, Bool.not_true, Bool.false_eq_true, if_false]
    split
    · exact h
    · rename_i p hp
      split
      · exact h
      · split
        · exact h
        · exact inv_atualizar_mapa s id d p hv hp h
  · simp only [hv, Bool.not_false, if_true]
    exact h

theorem inv_removerProduto (s : Store) (id : Nat) (h : Inv s) :
    Inv (removerProduto s id).1 := by
  unfold removerProduto
  split
  · exact h
  · split
    · exact h
    · rename_i hno
      obtain ⟨h1, h2, h3, h4, h5, h6, h7, h8, h9, h10⟩ := h
      refine ⟨?_, h2, ?_, h4, h5, ?_, h7, h8, h9, ?_⟩
      · intro q hq
        exact h1 q (List.mem_of_mem_filter hq)
      · exact h3.sublist ((List.filter_sublist _).map Produto.id)
      · intro q hq
        exact h6 q (List.mem_of_mem_filter hq)
      · intro i hi
        rcases h10 i hi with ⟨p₀, hp₀, hid₀⟩
        refine ⟨p₀, List.mem_filter.mpr ⟨hp₀, ?_⟩, hid₀⟩
        have hiref : i.produtoId ≠ id := by
          intro hcontra
          apply hno
          rw [List.any_eq_true]
          exact ⟨i, hi, by simpa using hcontra⟩
        simp only [bne_iff_ne, ne_eq]
        rw [hid₀]
        simpa using hiref

theorem inv_decrementar (s : Store) (pid : Nat) (q : Int) (p : Produto)
    (hp : findProduto s pid = some p) (hq : q ≤ p.estoque) (h : Inv s) :
    Inv (decrementarEstoque s pid q) := by
  obtain ⟨h1, h2, h3, h4, h5, h6, h7, h8, h9, h10⟩ := h
  have hpid : p.id = pid := findProduto_id hp
  have hpmem : p ∈ s.produtos := findProduto_mem hp
  have hidpres : ∀ r : Produto,
      (if r.id == pid then { r with estoque := r.estoque - q } else r).id = r.id := by
    intro r
    by_cases hc : r.id == pid
    · rw [if_pos hc]
    · rw [if_neg hc]
  have hmapid : ((decrementarEstoque s pid q).produtos).map Produto.id
      = s.produtos.map Produto.id := by
    show ((s.produtos.map _).map Produto.id) = _
    rw [List.map_map]
    exact List.map_congr_left (fun r _ => hidpres r)
  refine ⟨?_, h2, ?_, h4, h5, ?_, h7, h8, h9, ?_⟩
  · intro r hr
    rcases List.mem_map.mp hr with ⟨r', hr', hrr⟩
    subst hrr
    by_cases hc : r'.id == pid
    · rw [if_pos hc]
      have : r' = p := by
        apply List.inj_on_of_nodup_map h3 hr' hpmem
        rw [hpid]
        exact beq_iff_eq.mp hc
      subst this
      show 0 ≤ r'.estoque - q
      omega
    · rw [if_neg hc]
      exact h1 r' hr'
  · rw [hmapid]
    exact h3
  · intro r hr
    rcases List.mem_map.mp hr with ⟨r', hr', hrr⟩
    subst hrr
    show (if r'.id == pid then { r' with estoque := r'.estoque - q } else r').id < s.nextId
    rw [hidpres r']
    exact h6 r' hr'
  · intro i hi
    rcases h10 i hi with ⟨p₀, hp₀, hid₀⟩
    refine ⟨if p₀.id == pid then { p₀ with estoque := p₀.estoque - q } else p₀,
      List.mem_map_of_mem _ hp₀, ?_⟩
    rw [hidpres p₀]
    exact hid₀

theorem inv_incrementar (s : Store) (pid : Nat) (q : Int) (hq : 0 ≤ q) (h : Inv s) :
    Inv (incrementarEstoque s pid q) := by
  obtain ⟨h1, h2, h3, h4, h5, h6, h7, h8, h9, h10⟩ := h
  have hidpres : ∀ r : Produto,
      (if r.id == pid then { r with estoque := r.estoque + q } else r).id = r.id := by
    intro r
    by_cases hc : r.id == pid
    · rw [if_pos hc]
    · rw [if_neg hc]
  refine ⟨?_, h2, ?_, h4, h5, ?_, h7, h8, h9, ?_⟩
  · intro r hr
    rcases List.mem_map.mp hr with ⟨r', hr', hrr⟩
    subst hrr
    by_cases hc : r'.id == pid
    · rw [if_pos hc]
      show 0 ≤ r'.estoque + q
      have := h1 r' hr'
      omega
    · rw [if_neg hc]
      exact h1 r' hr'
  · show ((s.produtos.map _).map Produto.id).Nodup
    rw [List.map_map]
    have he : s.produtos.map (Produto.id ∘ fun p =>
        if p.id == pid then { p with estoque := p.estoque + q } else p)
        = s.produtos.map Produto.id := List.map_congr_left (fun r _ => hidpres r)
    rw [he]
    exact h3
  · intro r hr
    rcases List.mem_map.mp hr with ⟨r', hr', hrr⟩
    subst hrr
    show (if r'.id == pid then { r' with estoque := r'.estoque + q } else r').id < s.nextId
    rw [hidpres r']
    exact h6 r' hr'
  · intro i hi
    rcases h10 i hi with ⟨p₀, hp₀, hid₀⟩
    refine ⟨if p₀.id == pid then { p₀ with estoque := p₀.estoque + q } else p₀,
      List.mem_map_of_mem _ hp₀, ?_⟩
    rw [hidpres p₀]
    exact hid₀

theorem inv_upsert (s : Store) (pid cid : Nat) (q : Int)
    (hq : 1 ≤ q) (hcid : cid < s.nextId) (hex : ∃ p ∈ s.produtos, p.id = pid) (h : Inv s) :
    Inv (upsertItem s pid cid q) := by
  obtain ⟨h1, h2, h3, h4, h5, h6, h7, h8, h9, h10⟩ := h
  unfold upsertItem
  cases hf : findItem s pid cid with
  | some i =>
      have hfieldpres : ∀ j : ItemCarrinho,
          ((if j.id == i.id then { j with quantidade := j.quantidade + q } else j).id = j.id ∧
           (if j.id == i.id then { j with quantidade := j.quantidade + q } else j).produtoId
             = j.produtoId ∧
           (if j.id == i.id then { j with quantidade := j.quantidade + q } else j).carrinhoId
             = j.carrinhoId) := by
        intro j
        by_cases hc : j.id == i.id
        · rw [if_pos hc]
          exact ⟨rfl, rfl, rfl⟩
        · rw [if_neg hc]
          exact ⟨rfl, rfl, rfl⟩
      refine ⟨h1, ?_, h3, ?_, ?_, h6, h7, ?_, ?_, ?_⟩
      · intro j hj
        rcases List.mem_map.mp hj with ⟨j', hj', hjj⟩
        subst hjj
        by_cases hc : j'.id == i.id
        · rw [if_pos hc]
          show 1 ≤ j'.quantidade + q
          have := h2 j' hj'
          omega
        · rw [if_neg hc]
          exact h2 j' hj'
      · show ((s.itens.map _).map ItemCarrinho.id).Nodup
        rw [List.map_map]
        have he : s.itens.map (ItemCarrinho.id ∘ fun j =>
            if j.id == i.id then { j with quantidade := j.quantidade + q } else j)
            = s.itens.map ItemCarrinho.id := List.map_congr_left (fun j _ => (hfieldpres j).1)
        rw [he]
        exact h4
      · rw [List.pairwise_map]
        refine h5.imp_of_mem ?_
        intro a b _ _ hab
        rw [(hfieldpres a).2.1, (hfieldpres a).2.2, (hfieldpres b).2.1, (hfieldpres b).2.2]
        exact hab
      · intro j hj
        rcases List.mem_map.mp hj with ⟨j', hj', hjj⟩
        subst hjj
        show (if j'.id == i.id then { j' with quantidade := j'.quantidade + q } else j').id
          < s.nextId
        rw [(hfieldpres j').1]
        exact h8 j' hj'
      · intro j hj
        rcases List.mem_map.mp hj with ⟨j', hj', hjj⟩
        subst hjj
        show (if j'.id == i.id then { j' with quantidade := j'.quantidade + q } else j').carrinhoId
          < s.nextId
        rw [(hfieldpres j').2.2]
        exact h9 j' hj'
      · intro j hj
        rcases List.mem_map.mp hj with ⟨j', hj', hjj⟩
        subst hjj
        rcases h10 j' hj' with ⟨p₀, hp₀, hid₀⟩
        refine ⟨p₀, hp₀, ?_⟩
        rw [(hfieldpres j').2.1]
        exact hid₀
  | none =>
      have hnone : ∀ j ∈ s.itens, ¬(j.produtoId = pid ∧ j.carrinhoId = cid) :=
        findItem_eq_none_iff.mp hf
      refine ⟨h1, ?_, h3, ?_, ?_, ?_, ?_, ?_, ?_, ?_⟩
      · intro j hj
        rcases List.mem_append.mp hj with hj' | hj'
        · exact h2 j hj'
        · rw [List.mem_singleton.mp hj']
          exact hq
      · rw [List.map_append, List.nodup_append]
        refine ⟨h4, List.nodup_singleton _, ?_⟩
        intro a ha hb
        simp only [List.map_cons, List.map_nil, List.mem_singleton] at hb
        subst hb
        rcases List.mem_map.mp ha with ⟨j, hj, hid⟩
        exact absurd hid (Nat.ne_of_lt (h8 j hj))
      · rw [List.pairwise_append]
        refine ⟨h5, List.pairwise_singleton _ _, ?_⟩
        intro a ha b hb
        rw [List.mem_singleton.mp hb]
        have := hnone a ha
        rw [Decidable.not_and_iff_or_not] at this
        exact this
      · intro p hp
        exact Nat.lt_succ_of_lt (h6 p hp)
      · intro c hc
        exact Nat.lt_succ_of_lt (h7 c hc)
      · intro j hj
        rcases List.mem_append.mp hj with hj' | hj'
        · exact Nat.lt_succ_of_lt (h8 j hj')
        · rw [List.mem_singleton.mp hj']
          exact Nat.lt_succ_self _
      · intro j hj
        rcases List.mem_append.mp hj with hj' | hj'
        · exact Nat.lt_succ_of_lt (h9 j hj')
        · rw [List.mem_singleton.mp hj']
          exact Nat.lt_succ_of_lt hcid
      · intro j hj
        rcases List.mem_append.mp hj with hj' | hj'
        · exact h10 j hj'
        · rw [List.mem_singleton.mp hj']
          exact hex

theorem checagem_none {s : Store} {dto : AdicionarItemDto}
    (h : checagemAdicionar s dto = none) :
    ∃ p, findProduto s dto.produtoId = some p ∧ dto.quantidade ≤ p.estoque := by
  unfold checagemAdicionar at h
  cases hp : findProduto s dto.produtoId with
  | none =>
      rw [hp] at h
      simp at h
  | some p =>
      rw [hp] at h
      refine ⟨p, rfl, ?_⟩
      by_cases hc : p.estoque < dto.quantidade
      · simp [hc] at h
      · omega

theorem inv_adicionarItem (s : Store) (dto : AdicionarItemDto) (h : Inv s) :
    Inv (adicionarItem s dto).1 := by
  unfold adicionarItem
  by_cases hv : dto.valido
  · simp only [hv, Bool.not_true, Bool.false_eq_true, if_false]
    have hinv1 : Inv (obterOuCriarCarrinho s).1 := inv_obterOuCriar s h
    cases hc : checagemAdicionar (obterOuCriarCarrinho s).1 dto with
    | some e => exact hinv1
    | none =>
        rcases checagem_none hc with ⟨p, hp, hq⟩
        show Inv (transacaoAdicionar (obterOuCriarCarrinho s).1 dto (obterOuCriarCarrinho s).2.id)
        unfold transacaoAdicionar
        apply inv_upsert
        · exact AdicionarItemDto.valido_quantidade hv
        · show (obterOuCriarCarrinho s).2.id < (decrementarEstoque _ _ _).nextId
          exact carrinho_obterOuCriar_id_lt s h
        · have hfd := findProduto_decrementar_self (obterOuCriarCarrinho s).1 dto.produtoId
            dto.quantidade p hp
          exact ⟨{ p with estoque := p.estoque - dto.quantidade }, findProduto_mem hfd,
            findProduto_id hfd⟩
        · exact inv_decrementar _ _ _ p hp hq hinv1
  · simp only [hv, Bool.not_false, if_true]
    exact h

theorem inv_transacaoRemover (s : Store) (pid : Nat) (item : ItemCarrinho)
    (hmem : item ∈ s.itens) (h : Inv s) : Inv (transacaoRemover s pid item) := by
  have hq1 : 1 ≤ item.quantidade := h.2.1 item hmem
  have hinv2 : Inv (incrementarEstoque s pid item.quantidade) :=
    inv_incrementar _ _ _ (by omega) h
  obtain ⟨h1, h2, h3, h4, h5, h6, h7, h8, h9, h10⟩ := hinv2
  unfold transacaoRemover
  refine ⟨h1, ?_, h3, ?_, ?_, h6, h7, ?_, ?_, ?_⟩
  · intro j hj
    exact h2 j (List.mem_of_mem_filter hj)
  · exact h4.sublist ((List.filter_sublist _).map ItemCarrinho.id)
  · exact h5.sublist (List.filter_sublist _)
  · intro j hj
    exact h8 j (List.mem_of_mem_filter hj)
  · intro j hj
    exact h9 j (List.mem_of_mem_filter hj)
  · intro j hj
    exact h10 j (List.mem_of_mem_filter hj)

theorem inv_removerItem (s : Store) (pid : Nat) (h : Inv s) :
    Inv (removerItem s pid).1 := by
  unfold removerItem
  have hinv1 : Inv (obterOuCriarCarrinho s).1 := inv_obterOuCriar s h
  cases hf : findItem (obterOuCriarCarrinho s).1 pid (obterOuCriarCarrinho s).2.id with
  | none => exact hinv1
  | some item =>
      exact inv_transacaoRemover _ _ _ (findItem_fields hf).1 hinv1

theorem inv_verCarrinho (s : Store) (h : Inv s) : Inv (verCarrinho s).1 :=
  inv_obterOuCriar s h

theorem inv_step (s : Store) (op : Op) (h : Inv s) : Inv (step s op) := by
  cases op with
  | criar dto => exact inv_criarProduto s dto h
  | atualizar id dto => exact inv_atualizarProduto s id dto h
  | remover id => exact inv_removerProduto s id h
  | adicionar dto => exact inv_adicionarItem s dto h
  | removerDoCarrinho pid => exact inv_removerItem s pid h
  | ver => exact inv_verCarrinho s h

theorem inv_run (s : Store) (ops : List Op) (h : Inv s) : Inv (run s ops) := by
  induction ops generalizing s with
  | nil => exact h
  | cons op t ih => exact ih (step s op) (inv_step s op h)

/-! Conservation of stock between the available and reserved pools. -/

theorem estoqueDe_congr {s s' : Store} (h : s'.produtos = s.produtos) (pid : Nat) :
    estoqueDe s' pid = estoqueDe s pid := by
  unfold estoqueDe findProduto
  rw [h]

theorem reservado_congr {s s' : Store} (h : s'.itens = s.itens) (pid : Nat) :
    reservado s' pid = reservado s pid := by
  unfold reservado
  rw [h]

theorem find?_id_of_mem (l : List Produto) (hnd : (l.map Produto.id).Nodup)
    (p : Produto) (hp : p ∈ l) : l.find? (fun q => q.id == p.id) = some p := by
  induction l with
  | nil => cases hp
  | cons x t ih =>
      rw [List.map_cons, List.nodup_cons] at hnd
      rcases List.mem_cons.mp hp with h0 | hmem
      · subst h0
        rw [List.find?_cons_of_pos]
        simp
      · have hx : x.id ≠ p.id := by
          intro hc
          exact hnd.1 (hc ▸ List.mem_map_of_mem Produto.id hmem)
        rw [List.find?_cons_of_neg]
        · exact ih hnd.2 hmem
        · simpa using hx

theorem findProduto_of_mem {s : Store} (hnd : (s.produtos.map Produto.id).Nodup)
    {p : Produto} (hp : p ∈ s.produtos) : findProduto s p.id = some p :=
  find?_id_of_mem s.produtos hnd p hp

theorem estoqueDe_decrementar_self (s : Store) (pid : Nat) (q : Int) (p : Produto)
    (hp : findProduto s pid = some p) :
    estoqueDe (decrementarEstoque s pid q) pid = p.estoque - q := by
  unfold estoqueDe
  rw [findProduto_decrementar_self s pid q p hp]
  rfl

theorem estoqueDe_incrementar_self (s : Store) (pid : Nat) (q : Int) (p : Produto)
    (hp : findProduto s pid = some p) :
    estoqueDe (incrementarEstoque s pid q) pid = p.estoque + q := by
  unfold estoqueDe
  rw [findProduto_incrementar_self s pid q p hp]
  rfl

theorem estoqueDe_eq_of_some (s : Store) (pid : Nat) (p : Produto)
    (hp : findProduto s pid = some p) : estoqueDe s pid = p.estoque := by
  unfold estoqueDe
  rw [hp]
  rfl

theorem reservado_upsert (s : Store) (pid cid : Nat) (q : Int)
    (hnd : (s.itens.map ItemCarrinho.id).Nodup) (pid' : Nat) :
    reservado (upsertItem s pid cid q) pid'
      = reservado s pid' + (if pid = pid' then q else 0) := by
  unfold upsertItem
  cases hf : findItem s pid cid with
  | some i =>
      have hfields := findItem_fields hf
      show somaQuant (s.itens.map _) pid' = somaQuant s.itens pid' + _
      rw [somaQuant_bump s.itens i q pid' hnd hfields.1, hfields.2.1]
  | none =>
      show somaQuant (s.itens ++ [⟨s.nextId, q, pid, cid⟩]) pid'
        = somaQuant s.itens pid' + _
      rw [somaQuant_append_single]

theorem reservado_decrementar (s : Store) (pid : Nat) (q : Int) (pid' : Nat) :
    reservado (decrementarEstoque s pid q) pid' = reservado s pid' := rfl

theorem reservado_incrementar (s : Store) (pid : Nat) (q : Int) (pid' : Nat) :
    reservado (incrementarEstoque s pid q) pid' = reservado s pid' := rfl

theorem conservacao_transacaoAdicionar (s : Store) (dto : AdicionarItemDto) (cid : Nat)
    (p : Produto) (hp : findProduto s dto.produtoId = some p) (h : Inv s) (pid : Nat) :
    estoqueDe (transacaoAdicionar s dto cid) pid + reservado (transacaoAdicionar s dto cid) pid
      = estoqueDe s pid + reservado s pid := by
  obtain ⟨-, -, -, h4, -, -, -, -, -, -⟩ := h
  unfold transacaoAdicionar
  have hnd2 : ((decrementarEstoque s dto.produtoId dto.quantidade).itens.map
      ItemCarrinho.id).Nodup := h4
  rw [estoqueDe_congr (produtos_upsert _ _ _ _) pid,
    reservado_upsert _ _ _ _ hnd2 pid,
    show reservado (decrementarEstoque s dto.produtoId dto.quantidade) pid
      = reservado s pid from rfl]
  by_cases hc : dto.produtoId = pid
  · subst hc
    rw [estoqueDe_decrementar_self s dto.produtoId dto.quantidade p hp,
      estoqueDe_eq_of_some s dto.produtoId p hp, if_pos rfl]
    ring
  · rw [estoqueDe_decrementar_other s dto.produtoId dto.quantidade pid (fun hcc => hc hcc.symm),
      if_neg hc]
    ring

theorem conservacao_adicionarItem (s : Store) (dto : AdicionarItemDto) (h : Inv s) (pid : Nat) :
    estoqueDe (adicionarItem s dto).1 pid + reservado (adicionarItem s dto).1 pid
      = estoqueDe s pid + reservado s pid := by
  unfold adicionarItem
  by_cases hv : dto.valido
  · simp only [hv, Bool.not_true, Bool.false_eq_true, if_false]
    have hbase : estoqueDe (obterOuCriarCarrinho s).1 pid + reservado (obterOuCriarCarrinho s).1 pid
        = estoqueDe s pid + reservado s pid := by
      rw [estoqueDe_congr (produtos_obterOuCriar s) pid,
        reservado_congr (itens_obterOuCriar s) pid]
    cases hc : checagemAdicionar (obterOuCriarCarrinho s).1 dto with
    | some e => exact hbase
    | none =>
        rcases checagem_none hc with ⟨p, hp, -⟩
        show estoqueDe (transacaoAdicionar (obterOuCriarCarrinho s).1 dto
            (obterOuCriarCarrinho s).2.id) pid + _ = _
        rw [conservacao_transacaoAdicionar (obterOuCriarCarrinho s).1 dto
          (obterOuCriarCarrinho s).2.id p hp (inv_obterOuCriar s h) pid]
        exact hbase
  · simp only [hv, Bool.not_false, if_true]

theorem conservacao_removerItem (s : Store) (pid : Nat) (h : Inv s) (pid' : Nat) :
    estoqueDe (removerItem s pid).1 pid' + reservado (removerItem s pid).1 pid'
      = estoqueDe s pid' + reservado s pid' := by
  unfold removerItem
  have hinv1 : Inv (obterOuCriarCarrinho s).1 := inv_obterOuCriar s h
  have hbase : estoqueDe (obterOuCriarCarrinho s).1 pid' + reservado (obterOuCriarCarrinho s).1 pid'
      = estoqueDe s pid' + reservado s pid' := by
    rw [estoqueDe_congr (produtos_obterOuCriar s) pid',
      reservado_congr (itens_obterOuCriar s) pid']
  cases hf : findItem (obterOuCriarCarrinho s).1 pid (obterOuCriarCarrinho s).2.id with
  | none => exact hbase
  | some item =>
      obtain ⟨-, -, hnd3, h4, -, -, -, -, -, h10⟩ := hinv1
      have hfields := findItem_fields hf
      rcases h10 item hfields.1 with ⟨p, hpmem, hpid⟩
      have hpfind : findProduto (obterOuCriarCarrinho s).1 item.produtoId = some p := by
        rw [← hpid]
        exact findProduto_of_mem hnd3 hpmem
      rw [hfields.2.1] at hpfind
      show estoqueDe (transacaoRemover (obterOuCriarCarrinho s).1 pid item) pid' + _ = _
      have hprod : (transacaoRemover (obterOuCriarCarrinho s).1 pid item).produtos
          = (incrementarEstoque (obterOuCriarCarrinho s).1 pid item.quantidade).produtos := rfl
      have hitens : (transacaoRemover (obterOuCriarCarrinho s).1 pid item).itens
          = (obterOuCriarCarrinho s).1.itens.filter (fun i => i.id != item.id) := rfl
      rw [← hbase]
      have hres : reservado (transacaoRemover (obterOuCriarCarrinho s).1 pid item) pid'
          = reservado (obterOuCriarCarrinho s).1 pid'
            - (if item.produtoId = pid' then item.quantidade else 0) := by
        show somaQuant _ pid' = somaQuant _ pid' - _
        rw [hitens]
        exact somaQuant_erase _ item pid' h4 hfields.1
      rw [hres, hfields.2.1]
      by_cases hcc : pid = pid'
      · subst hcc
        rw [estoqueDe_congr hprod pid,
          estoqueDe_incrementar_self _ pid item.quantidade p hpfind,
          estoqueDe_eq_of_some _ pid p hpfind, if_pos rfl]
        ring
      · rw [estoqueDe_congr hprod pid',
          estoqueDe_incrementar_other _ pid item.quantidade pid' (fun h9 => hcc h9.symm),
          if_neg hcc]
        ring

theorem conservacao_verCarrinho (s : Store) (pid : Nat) :
    estoqueDe (verCarrinho s).1 pid + reservado (verCarrinho s).1 pid
      = estoqueDe s pid + reservado s pid := by
  unfold verCarrinho
  rw [estoqueDe_congr (produtos_obterOuCriar s) pid,
    reservado_congr (itens_obterOuCriar s) pid]

/-- Whether an operation is a cart operation (AddItem, RemoveItem, view). -/
def Op.cartOp : Op → Bool
  | Op.adicionar _ => true
  | Op.removerDoCarrinho _ => true
  | Op.ver => true
  | _ => false

theorem conservacao_step (s : Store) (op : Op) (h : Inv s) (hop : op.cartOp = true)
    (pid : Nat) :
    estoqueDe (step s op) pid + reservado (step s op) pid
      = estoqueDe s pid + reservado s pid := by
  cases op with
  | adicionar dto => exact conservacao_adicionarItem s dto h pid
  | removerDoCarrinho produtoId => exact conservacao_removerItem s produtoId h pid
  | ver => exact conservacao_verCarrinho s pid
  | criar dto => cases hop
  | atualizar id dto => cases hop
  | remover id => cases hop

theorem conservacao_run (s : Store) (ops : List Op) (h : Inv s)
    (hops : ∀ op ∈ ops, op.cartOp = true) (pid : Nat) :
    estoqueDe (run s ops) pid + reservado (run s ops) pid
      = estoqueDe s pid + reservado s pid := by
  induction ops generalizing s with
  | nil => rfl
  | cons op t ih =>
      show estoqueDe (run (step s op) t) pid + reservado (run (step s op) t) pid = _
      rw [ih (step s op) (inv_step s op h) (fun o ho => hops o (List.mem_cons_of_mem op ho))]
      exact conservacao_step s op h (hops op (List.mem_cons_self op t)) pid

/-! Further helper lemmas for the claim theorems. -/

theorem findProduto_congr {s s' : Store} (h : s'.produtos = s.produtos) (pid : Nat) :
    findProduto s' pid = findProduto s pid := by
  unfold findProduto
  rw [h]

theorem findCarrinho_congr {s s' : Store} (h : s'.carrinhos = s.carrinhos) :
    findCarrinho s' = findCarrinho s := by
  unfold findCarrinho
  rw [h]

theorem findItem_congr {s s' : Store} (h : s'.itens = s.itens) (pid cid : Nat) :
    findItem s' pid cid = findItem s pid cid := by
  unfold findItem
  rw [h]

theorem checagem_congr {s s' : Store} (h : s'.produtos = s.produtos)
    (dto : AdicionarItemDto) :
    checagemAdicionar s' dto = checagemAdicionar s dto := by
  unfold checagemAdicionar
  rw [findProduto_congr h]

theorem checagem_insuficiente (s : Store) (dto : AdicionarItemDto) (p : Produto)
    (hp : findProduto s dto.produtoId = some p) (hlow : p.estoque < dto.quantidade) :
    checagemAdicionar s dto = some (Err.badRequest
      ("Estoque insuficiente para \"" ++ p.nome ++ "\". Disponível: "
        ++ toString p.estoque ++ ".")) := by
  unfold checagemAdicionar
  rw [hp]
  simp [hlow]

theorem checagem_passa (s : Store) (dto : AdicionarItemDto) (p : Produto)
    (hp : findProduto s dto.produtoId = some p) (hq : dto.quantidade ≤ p.estoque) :
    checagemAdicionar s dto = none := by
  unfold checagemAdicionar
  rw [hp]
  simp
  omega

theorem find?_map_quantidade (l : List ItemCarrinho) (tid : Nat) (q : Int) (pid cid : Nat) :
    (l.map (fun j => if j.id == tid then { j with quantidade := j.quantidade + q } else j)).find?
        (fun i => i.produtoId == pid && i.carrinhoId == cid)
      = (l.find? (fun i => i.produtoId == pid && i.carrinhoId == cid)).map
          (fun j => if j.id == tid then { j with quantidade := j.quantidade + q } else j) := by
  have hfun : ((fun i : ItemCarrinho => i.produtoId == pid && i.carrinhoId == cid) ∘
      fun j => if j.id == tid then { j with quantidade := j.quantidade + q } else j)
      = fun i : ItemCarrinho => i.produtoId == pid && i.carrinhoId == cid := by
    funext j
    by_cases h : j.id == tid <;> simp [Function.comp, h]
  rw [List.find?_map, hfun]

theorem foldl_total_eq_sum (l : List (ItemCarrinho × Produto)) (a : ℚ) :
    l.foldl (fun acc x => acc + (x.1.quantidade : ℚ) * x.2.preco) a
      = a + (l.map (fun x => (x.1.quantidade : ℚ) * x.2.preco)).sum := by
  induction l generalizing a with
  | nil => simp
  | cons x t ih =>
      rw [List.foldl_cons, ih, List.map_cons, List.sum_cons]
      ring

theorem reservado_fresh (s : Store) (h : Inv s) : reservado s s.nextId = 0 := by
  unfold reservado
  have hnil : s.itens.filter (fun i => i.produtoId == s.nextId) = [] := by
    rw [List.filter_eq_nil]
    intro i hi
    obtain ⟨-, -, -, -, -, h6, -, -, -, h10⟩ := h
    rcases h10 i hi with ⟨p, hp, hpid⟩
    have := h6 p hp
    simp only [beq_iff_eq]
    omega
  rw [hnil]
  rfl

theorem findItem_upsert_incrementa (s : Store) (pid cid : Nat) (q : Int) (i : ItemCarrinho)
    (hi : findItem s pid cid = some i) :
    findItem (upsertItem s pid cid q) pid cid
      = some { i with quantidade := i.quantidade + q } ∧
    (upsertItem s pid cid q).itens.length = s.itens.length := by
  unfold upsertItem
  simp only [hi]
  constructor
  · show ((s.itens.map _).find? _) = _
    rw [find?_map_quantidade]
    show ((s.itens.find? _).map _) = _
    rw [show s.itens.find? (fun j => j.produtoId == pid && j.carrinhoId == cid) = some i from hi]
    show some (if i.id == i.id then { i with quantidade := i.quantidade + q } else i) = _
    rw [if_pos (by simp)]
  · exact List.length_map _ _

/-! Claim theorems. -/

/-- C2 (code defect): in `adicionarItem` the stock check (lines 228–241) runs
outside the batched `$transaction` (lines 243–269) and the decrement is
unconditional, so the schedule "check₁, check₂, commit₁, commit₂" of two
concurrent AddItem(produto 0, quantidade 3) calls against estoque 5 lets both
calls pass the check against the same stale estoque and both transactions
commit: the final estoque is −1 with 6 units reserved, instead of the claimed
"exactly one succeeds and the other fails with InsufficientStock, final
estoque reflects only the winner's decrement". -/
theorem C2_corridaDupla :
    checagemAdicionar ⟨[⟨0, "Widget", 10, 5⟩], [⟨1, usuarioFixo⟩], [], 2⟩ ⟨0, 3⟩ = none ∧
    estoqueDe (transacaoAdicionar (transacaoAdicionar
      ⟨[⟨0, "Widget", 10, 5⟩], [⟨1, usuarioFixo⟩], [], 2⟩ ⟨0, 3⟩ 1) ⟨0, 3⟩ 1) 0 = -1 ∧
    reservado (transacaoAdicionar (transacaoAdicionar
      ⟨[⟨0, "Widget", 10, 5⟩], [⟨1, usuarioFixo⟩], [], 2⟩ ⟨0, 3⟩ 1) ⟨0, 3⟩ 1) 0 = 6 := by
  decide

/-- C3: starting from any well-formed store, after any sequence of committed
operations (create, update, delete, AddItem, RemoveItem, view) every
product's estoque is nonnegative. -/
theorem C3_estoqueNaoNegativo (s : Store) (ops : List Op) (h : Inv s) :
    ∀ p ∈ (run s ops).produtos, 0 ≤ p.estoque :=
  (inv_run s ops h).1

/-- C3 witness: the invariant evaluated on a concrete trace (AddItem 3 of 5,
leaving the Widget row with estoque 2). -/
theorem C3_estoqueNaoNegativo_witness :
    0 ≤ (Produto.mk 0 "Widget" 10 2).estoque :=
  C3_estoqueNaoNegativo ⟨[⟨0, "Widget", 10, 5⟩], [⟨1, usuarioFixo⟩], [], 2⟩
    [Op.adicionar ⟨0, 3⟩] (by decide) ⟨0, "Widget", 10, 2⟩ (by decide)

/-- C5 counterexample: with a cart line (item 2, quantidade 3) still
referencing product 0, `removerProduto` does NOT remove the product: the
store's `ItemCarrinho_produtoId_fkey ... ON DELETE RESTRICT` rejects the
delete and the state is unchanged, contradicting the claim that delete
"removes the Product, including when cart line items still reference it". -/
theorem C5_contraexemplo :
    removerProduto ⟨[⟨0, "Widget", 10, 2⟩], [⟨1, usuarioFixo⟩], [⟨2, 3, 0, 1⟩], 3⟩ 0
      = (⟨[⟨0, "Widget", 10, 2⟩], [⟨1, usuarioFixo⟩], [⟨2, 3, 0, 1⟩], 3⟩,
         Except.error (Err.storeError
           "Foreign key constraint failed: ItemCarrinho_produtoId_fkey")) := by
  rfl

/-- C5 (amended): delete fails with NotFound if the product is absent;
removes the product when no cart line references it (and never cleans up
cart lines — itens is untouched in every branch); but when a cart line still
references it the store's ON DELETE RESTRICT foreign key rejects the
deletion and the product remains. -/
theorem C5_removerProduto (s : Store) (id : Nat) :
    (removerProduto s id).1.itens = s.itens ∧
    (findProduto s id = none →
      removerProduto s id = (s, Except.error (Err.notFound
        ("Produto com ID " ++ toString id ++ " não encontrado.")))) ∧
    (∀ p, findProduto s id = some p → (∀ i ∈ s.itens, i.produtoId ≠ id) →
      removerProduto s id
        = ({ s with produtos := s.produtos.filter (fun q => q.id != id) }, Except.ok ()) ∧
      findProduto (removerProduto s id).1 id = none) ∧
    (∀ p i, findProduto s id = some p → i ∈ s.itens → i.produtoId = id →
      removerProduto s id = (s, Except.error (Err.storeError
        "Foreign key constraint failed: ItemCarrinho_produtoId_fkey"))) := by
  refine ⟨?_, ?_, ?_, ?_⟩
  · unfold removerProduto
    cases findProduto s id with
    | none => rfl
    | some p =>
        by_cases hany : (s.itens.any fun i => i.produtoId == id) = true
        · rw [if_pos hany]
        · rw [if_neg hany]
  · intro hnone
    unfold removerProduto
    rw [hnone]
  · intro p hp hno
    have hany : (s.itens.any fun i => i.produtoId == id) = false := by
      rw [List.any_eq_false]
      intro i hi
      simpa using hno i hi
    have hEq : removerProduto s id
        = ({ s with produtos := s.produtos.filter (fun q => q.id != id) }, Except.ok ()) := by
      unfold removerProduto
      rw [hp, hany]
      rw [if_neg Bool.false_ne_true]
    refine ⟨hEq, ?_⟩
    rw [hEq]
    show (s.produtos.filter (fun q => q.id != id)).find? (fun q => q.id == id) = none
    rw [List.find?_eq_none]
    intro q hq
    have := (List.mem_filter.mp hq).2
    simp only [bne_iff_ne, ne_eq] at this
    simpa using this
  · intro p i hp hi hpid
    unfold removerProduto
    rw [hp]
    have hany : (s.itens.any fun j => j.produtoId == id) = true := by
      rw [List.any_eq_true]
      exact ⟨i, hi, by simpa using hpid⟩
    rw [hany, if_pos rfl]

/-- C5 witness: the NotFound branch of the amended theorem at a concrete
store with no product 7. -/
theorem C5_removerProduto_witness :
    removerProduto ⟨[⟨0, "Widget", 10, 2⟩], [], [], 1⟩ 7
      = (⟨[⟨0, "Widget", 10, 2⟩], [], [], 1⟩,
         Except.error (Err.notFound "Produto com ID 7 não encontrado.")) :=
  (C5_removerProduto ⟨[⟨0, "Widget", 10, 2⟩], [], [], 1⟩ 7).2.1 rfl

/-- C6: when the product exists but has estoque < quantidade, AddItem fails
with the insufficient-stock BadRequest whose message carries the product's
nome and its available estoque, and the failed call changes neither the
product rows nor the cart lines (only the lazily created cart may have been
committed). -/
theorem C6_estoqueInsuficiente (s : Store) (dto : AdicionarItemDto) (p : Produto)
    (hv : dto.valido = true)
    (hp : findProduto s dto.produtoId = some p)
    (hlow : p.estoque < dto.quantidade) :
    adicionarItem s dto
      = ((obterOuCriarCarrinho s).1, Except.error (Err.badRequest
          ("Estoque insuficiente para \"" ++ p.nome ++ "\". Disponível: "
            ++ toString p.estoque ++ "."))) ∧
    (adicionarItem s dto).1.produtos = s.produtos ∧
    (adicionarItem s dto).1.itens = s.itens := by
  have hp1 : findProduto (obterOuCriarCarrinho s).1 dto.produtoId = some p := by
    rw [findProduto_congr (produtos_obterOuCriar s)]
    exact hp
  have hchk := checagem_insuficiente (obterOuCriarCarrinho s).1 dto p hp1 hlow
  have hEq : adicionarItem s dto
      = ((obterOuCriarCarrinho s).1, Except.error (Err.badRequest
          ("Estoque insuficiente para \"" ++ p.nome ++ "\". Disponível: "
            ++ toString p.estoque ++ "."))) := by
    unfold adicionarItem
    simp only [hv, Bool.not_true, Bool.false_eq_true, if_false]
    rw [hchk]
  refine ⟨hEq, ?_, ?_⟩
  · rw [hEq]
    exact produtos_obterOuCriar s
  · rw [hEq]
    exact itens_obterOuCriar s

/-- C6 witness: AddItem(produto 0, 3) against estoque 2 in a concrete store. -/
theorem C6_estoqueInsuficiente_witness :
    adicionarItem ⟨[⟨0, "Widget", 10, 2⟩], [⟨1, usuarioFixo⟩], [], 2⟩ ⟨0, 3⟩
      = (⟨[⟨0, "Widget", 10, 2⟩], [⟨1, usuarioFixo⟩], [], 2⟩,
         Except.error (Err.badRequest
           "Estoque insuficiente para \"Widget\". Disponível: 2.")) :=
  (C6_estoqueInsuficiente ⟨[⟨0, "Widget", 10, 2⟩], [⟨1, usuarioFixo⟩], [], 2⟩ ⟨0, 3⟩
    ⟨0, "Widget", 10, 2⟩ (by decide) rfl (by decide)).1

/-- C4: update of a product fails with NotFound when the id is absent, with
InvalidInput (400) when the supplied field set is empty and when a supplied
field violates the creation constraints, fails when a supplied nome collides
with the unique index on another row, and otherwise applies exactly the
supplied fields (absent fields keep the row's values), leaving every other
row in place, and returns the updated product. -/
theorem C4_atualizarProduto (s : Store) (id : Nat) (d : AtualizarProdutoDto) :
    (d.valido = true → findProduto s id = none →
      atualizarProduto s id d = (s, Except.error (Err.notFound
        ("Produto com ID " ++ toString id ++ " não encontrado.")))) ∧
    (d.valido = true → d.vazio = true → ∀ p, findProduto s id = some p →
      atualizarProduto s id d = (s, Except.error (Err.badRequest
        "Pelo menos um campo deve ser fornecido para atualização."))) ∧
    (d.valido = false → atualizarProduto s id d
        = (s, Except.error (Err.badRequest "Dados inválidos."))) ∧
    (∀ p, d.valido = true → d.vazio = false → findProduto s id = some p →
      (∀ n, d.nome = some n → nomeColide s id n = false) →
      atualizarProduto s id d
        = ({ s with produtos :=
              s.produtos.map (fun q => if q.id == id then aplicarAtualizacao p d else q) },
           Except.ok (aplicarAtualizacao p d)) ∧
      (aplicarAtualizacao p d).id = p.id ∧
      (aplicarAtualizacao p d).nome = d.nome.getD p.nome ∧
      (aplicarAtualizacao p d).preco = d.preco.getD p.preco ∧
      (aplicarAtualizacao p d).estoque = d.estoque.getD p.estoque ∧
      (∀ q ∈ s.produtos, q.id ≠ id → q ∈ (atualizarProduto s id d).1.produtos)) ∧
    (∀ p n, d.valido = true → d.vazio = false → findProduto s id = some p →
      d.nome = some n → nomeColide s id n = true →
      atualizarProduto s id d = (s, Except.error (Err.storeError
        "Unique constraint failed: Produto_nome_key"))) := by
  refine ⟨?_, ?_, ?_, ?_, ?_⟩
  · intro hv hnone
    unfold atualizarProduto
    simp only [hv, Bool.not_true, Bool.false_eq_true, if_false]
    rw [hnone]
  · intro hv hz p hp
    unfold atualizarProduto
    simp only [hv, Bool.not_true, Bool.false_eq_true, if_false]
    simp only [hp]
    rw [if_pos hz]
  · intro hv
    unfold atualizarProduto
    simp only [hv, Bool.not_false, if_true]
  · intro p hv hz hp hnocol
    have hcol : (match d.nome with
        | some n => nomeColide s id n
        | none => false) = false := by
      cases hn : d.nome with
      | none => rfl
      | some n =>
          show nomeColide s id n = false
          exact hnocol n hn
    have hEq : atualizarProduto s id d
        = ({ s with produtos :=
              s.produtos.map (fun q => if q.id == id then aplicarAtualizacao p d else q) },
           Except.ok (aplicarAtualizacao p d)) := by
      unfold atualizarProduto
      simp only [hv, Bool.not_true, Bool.false_eq_true, if_false]
      simp only [hp]
      rw [hz, if_neg Bool.false_ne_true, hcol, if_neg Bool.false_ne_true]
    refine ⟨hEq, rfl, rfl, rfl, rfl, ?_⟩
    intro q hq hne
    rw [hEq]
    show q ∈ s.produtos.map (fun r => if r.id == id then aplicarAtualizacao p d else r)
    refine List.mem_map.mpr ⟨q, hq, ?_⟩
    rw [if_neg]
    simpa using hne
  · intro p n hv hz hp hn hcol
    unfold atualizarProduto
    simp only [hv, Bool.not_true, Bool.false_eq_true, if_false]
    simp only [hp]
    rw [hz, if_neg Bool.false_ne_true]
    have hm : (match d.nome with
        | some m => nomeColide s id m
        | none => false) = true := by
      rw [hn]
      exact hcol
    rw [hm, if_pos rfl]

/-- C4 witness: the empty-field-set branch on a concrete store. -/
theorem C4_atualizarProduto_witness :
    atualizarProduto ⟨[⟨0, "Widget", 10, 5⟩], [], [], 1⟩ 0 ⟨none, none, none⟩
      = (⟨[⟨0, "Widget", 10, 5⟩], [], [], 1⟩,
         Except.error (Err.badRequest
           "Pelo menos um campo deve ser fornecido para atualização.")) :=
  (C4_atualizarProduto ⟨[⟨0, "Widget", 10, 5⟩], [], [], 1⟩ 0 ⟨none, none, none⟩).2.1
    (by decide) (by decide) ⟨0, "Widget", 10, 5⟩ rfl

/-- C9: the cart view computes, for each line, the line total
quantidade * preco from the product row looked up at read time (which also
supplies the displayed nome and unit price), and a cart-level total equal to
the sum of the line totals. -/
theorem C9_verCarrinho (s : Store) :
    (verCarrinho s).2.total = ((verCarrinho s).2.itens.map ItemView.totalItem).sum ∧
    ∀ lv ∈ (verCarrinho s).2.itens,
      lv.totalItem = (lv.quantidade : ℚ) * lv.precoUnitario ∧
      ∃ i p, i ∈ (verCarrinho s).1.itens ∧
        findProduto (verCarrinho s).1 i.produtoId = some p ∧
        lv.produtoId = i.produtoId ∧ lv.nome = p.nome ∧
        lv.quantidade = i.quantidade ∧ lv.precoUnitario = p.preco := by
  constructor
  · show ((itensDoCarrinho (obterOuCriarCarrinho s).1 (obterOuCriarCarrinho s).2.id).foldl
        (fun acc x => acc + (x.1.quantidade : ℚ) * x.2.preco) 0) = _
    rw [foldl_total_eq_sum, zero_add]
    show _ = (((itensDoCarrinho (obterOuCriarCarrinho s).1 (obterOuCriarCarrinho s).2.id).map
        _).map ItemView.totalItem).sum
    rw [List.map_map]
    rfl
  · intro lv hlv
    have hlv' : lv ∈ (itensDoCarrinho (obterOuCriarCarrinho s).1
        (obterOuCriarCarrinho s).2.id).map (fun x =>
        (⟨x.1.produtoId, x.2.nome, x.1.quantidade, x.2.preco,
          (x.1.quantidade : ℚ) * x.2.preco⟩ : ItemView)) := hlv
    rcases List.mem_map.mp hlv' with ⟨x, hx, hfmt⟩
    rcases List.mem_filterMap.mp hx with ⟨i, hi, hjoin⟩
    rcases Option.map_eq_some'.mp hjoin with ⟨p, hfind, hip⟩
    subst hfmt
    subst hip
    refine ⟨rfl, i, p, List.mem_of_mem_filter hi, hfind, rfl, rfl, rfl, rfl⟩

/-- C9 witness: the total of a concrete cart view equals the sum of its line
totals. -/
theorem C9_verCarrinho_witness :
    (verCarrinho ⟨[⟨0, "Widget", 10, 2⟩], [⟨1, usuarioFixo⟩], [⟨2, 3, 0, 1⟩], 3⟩).2.total
      = ((verCarrinho ⟨[⟨0, "Widget", 10, 2⟩], [⟨1, usuarioFixo⟩],
          [⟨2, 3, 0, 1⟩], 3⟩).2.itens.map ItemView.totalItem).sum :=
  (C9_verCarrinho ⟨[⟨0, "Widget", 10, 2⟩], [⟨1, usuarioFixo⟩], [⟨2, 3, 0, 1⟩], 3⟩).1

/-- C10: an AddItem call issued when the owner has no cart commits a fresh
empty cart before validating the product, and that cart persists when the
call then fails (unknown product or insufficient stock): the failed call's
resulting state holds the new cart, its line items are unchanged, and no
line belongs to the new cart. -/
theorem C10_carrinhoPersisteAposFalha (s : Store) (dto : AdicionarItemDto)
    (hInv : Inv s) (hv : dto.valido = true) (hnc : findCarrinho s = none)
    (hfail : checagemAdicionar s dto ≠ none) :
    ∃ e, checagemAdicionar s dto = some e ∧
      adicionarItem s dto = ((obterOuCriarCarrinho s).1, Except.error e) ∧
      findCarrinho (adicionarItem s dto).1 = some (obterOuCriarCarrinho s).2 ∧
      (adicionarItem s dto).1.itens = s.itens ∧
      ∀ i ∈ (adicionarItem s dto).1.itens, i.carrinhoId ≠ (obterOuCriarCarrinho s).2.id := by
  cases he : checagemAdicionar s dto with
  | none => exact absurd he hfail
  | some e =>
      have he1 : checagemAdicionar (obterOuCriarCarrinho s).1 dto = some e := by
        rw [checagem_congr (produtos_obterOuCriar s)]
        exact he
      have hEq : adicionarItem s dto = ((obterOuCriarCarrinho s).1, Except.error e) := by
        unfold adicionarItem
        simp only [hv, Bool.not_true, Bool.false_eq_true, if_false]
        rw [he1]
      have hcid : (obterOuCriarCarrinho s).2.id = s.nextId := by
        unfold obterOuCriarCarrinho
        rw [hnc]
      refine ⟨e, rfl, hEq, ?_, ?_, ?_⟩
      · rw [hEq]
        exact findCarrinho_obterOuCriar s
      · rw [hEq]
        exact itens_obterOuCriar s
      · intro i hi
        rw [hEq] at hi
        have hi' : i ∈ s.itens := by
          rw [itens_obterOuCriar s] at hi
          exact hi
        have := hInv.2.2.2.2.2.2.2.2.1 i hi'
        rw [hcid]
        omega

/-- C10 witness: AddItem of an unknown product against an empty store still
commits the new cart. -/
theorem C10_carrinhoPersisteAposFalha_witness :
    ∃ e, checagemAdicionar ⟨[], [], [], 0⟩ ⟨0, 1⟩ = some e ∧
      adicionarItem ⟨[], [], [], 0⟩ ⟨0, 1⟩
        = ((obterOuCriarCarrinho ⟨[], [], [], 0⟩).1, Except.error e) ∧
      findCarrinho (adicionarItem ⟨[], [], [], 0⟩ ⟨0, 1⟩).1
        = some (obterOuCriarCarrinho ⟨[], [], [], 0⟩).2 ∧
      (adicionarItem ⟨[], [], [], 0⟩ ⟨0, 1⟩).1.itens = ([] : List ItemCarrinho) ∧
      ∀ i ∈ (adicionarItem ⟨[], [], [], 0⟩ ⟨0, 1⟩).1.itens,
        i.carrinhoId ≠ (obterOuCriarCarrinho ⟨[], [], [], 0⟩).2.id :=
  C10_carrinhoPersisteAposFalha ⟨[], [], [], 0⟩ ⟨0, 1⟩ (by decide) (by decide) rfl
    (by decide)

/-- C1 counterexample: product 0 is created with estoque 5 (its original
unreserved stock; here it already sits in the store with no reservations),
AddItem(0, 3) reserves 3 (estoque 2 + reserved 3 = 5, conserved), but a
committed atualizarProduto supplying estoque := 10 leaves
estoque (10) + reserved (3) = 13 ≠ 5, refuting the claim for sequences
containing a stock-updating product update. -/
theorem C1_contraexemplo :
    estoqueDe ⟨[⟨0, "Widget", 10, 5⟩], [], [], 1⟩ 0
      + reservado ⟨[⟨0, "Widget", 10, 5⟩], [], [], 1⟩ 0 = 5 ∧
    estoqueDe (run ⟨[⟨0, "Widget", 10, 5⟩], [], [], 1⟩
        [Op.adicionar ⟨0, 3⟩, Op.atualizar 0 ⟨none, none, some 10⟩]) 0
      + reservado (run ⟨[⟨0, "Widget", 10, 5⟩], [], [], 1⟩
        [Op.adicionar ⟨0, 3⟩, Op.atualizar 0 ⟨none, none, some 10⟩]) 0 = 13 := by
  decide

/-- C1 (amended): cart operations (AddItem, RemoveItem, view) conserve
estoque + reserved for every product, so a product created with estoque e₀
satisfies estoque + reserved = e₀ after any sequence of committed cart
operations; the original claim fails only because a committed
atualizarProduto supplying an estoque field resets the baseline. -/
theorem C1_conservacao (s : Store) (dto : CriarProdutoDto) (ops : List Op)
    (hInv : Inv s) (hv : dto.valido = true)
    (hnome : findProdutoPorNome s dto.nome = none)
    (hops : ∀ op ∈ ops, op.cartOp = true) :
    ∃ s₁ p, criarProduto s dto = (s₁, Except.ok p) ∧
      estoqueDe (run s₁ ops) p.id + reservado (run s₁ ops) p.id = dto.estoque := by
  have hEq : criarProduto s dto
      = ((criarProduto s dto).1, Except.ok ⟨s.nextId, dto.nome, dto.preco, dto.estoque⟩) := by
    unfold criarProduto
    simp only [hv, Bool.not_true, Bool.false_eq_true, if_false]
    rw [hnome]
  refine ⟨(criarProduto s dto).1, ⟨s.nextId, dto.nome, dto.preco, dto.estoque⟩, hEq, ?_⟩
  have hInv1 : Inv (criarProduto s dto).1 := inv_criarProduto s dto hInv
  show estoqueDe (run (criarProduto s dto).1 ops) s.nextId
      + reservado (run (criarProduto s dto).1 ops) s.nextId = dto.estoque
  rw [conservacao_run _ ops hInv1 hops]
  have hprod1 : (criarProduto s dto).1.produtos
      = s.produtos ++ [⟨s.nextId, dto.nome, dto.preco, dto.estoque⟩] := by
    unfold criarProduto
    simp only [hv, Bool.not_true, Bool.false_eq_true, if_false]
    rw [hnome]
  have hitens1 : (criarProduto s dto).1.itens = s.itens := by
    unfold criarProduto
    simp only [hv, Bool.not_true, Bool.false_eq_true, if_false]
    rw [hnome]
  have hfind : findProduto (criarProduto s dto).1 s.nextId
      = some ⟨s.nextId, dto.nome, dto.preco, dto.estoque⟩ := by
    unfold findProduto
    rw [hprod1, List.find?_append]
    have h1 : s.produtos.find? (fun p => p.id == s.nextId) = none := by
      rw [List.find?_eq_none]
      intro p hp
      have := hInv.2.2.2.2.2.1 p hp
      simp only [beq_iff_eq]
      omega
    rw [h1]
    show ([⟨s.nextId, dto.nome, dto.preco, dto.estoque⟩] :
      List Produto).find? (fun p => p.id == s.nextId) = _
    rw [List.find?_cons_of_pos]
    simp
  have hres : reservado (criarProduto s dto).1 s.nextId = 0 := by
    rw [reservado_congr hitens1]
    exact reservado_fresh s hInv
  rw [hres]
  unfold estoqueDe
  rw [hfind]
  show dto.estoque + 0 = dto.estoque
  ring

/-- C1 witness: create Widget with estoque 5 in an empty store and add 3 to
the cart: estoque + reserved is still 5. -/
theorem C1_conservacao_witness :
    ∃ s₁ p, criarProduto ⟨[], [], [], 0⟩ ⟨"Widget", 10, 5⟩ = (s₁, Except.ok p) ∧
      estoqueDe (run s₁ [Op.adicionar ⟨0, 3⟩]) p.id
        + reservado (run s₁ [Op.adicionar ⟨0, 3⟩]) p.id = 5 :=
  C1_conservacao ⟨[], [], [], 0⟩ ⟨"Widget", 10, 5⟩ [Op.adicionar ⟨0, 3⟩]
    (by decide) (by decide) rfl (by decide)

/-- C7: in every state reachable from a well-formed store, the (produtoId,
carrinhoId) pair is unique across cart lines and every line's quantidade is
at least 1; moreover an AddItem for a product already in the cart increments
that line's quantidade by the new amount and adds no line. -/
theorem C7_linhaUnicaPorProduto (s : Store) (h : Inv s) :
    (∀ ops : List Op,
      (run s ops).itens.Pairwise
        (fun i j => i.produtoId ≠ j.produtoId ∨ i.carrinhoId ≠ j.carrinhoId) ∧
      ∀ i ∈ (run s ops).itens, 1 ≤ i.quantidade) ∧
    (∀ dto c i, dto.valido = true → findCarrinho s = some c →
      findItem s dto.produtoId c.id = some i →
      checagemAdicionar s dto = none →
      findItem (adicionarItem s dto).1 dto.produtoId c.id
        = some { i with quantidade := i.quantidade + dto.quantidade } ∧
      (adicionarItem s dto).1.itens.length = s.itens.length) := by
  constructor
  · intro ops
    have hI := inv_run s ops h
    exact ⟨hI.2.2.2.2.1, hI.2.1⟩
  · intro dto c i hv hc hi hchk
    have hsc : obterOuCriarCarrinho s = (s, c) := by
      unfold obterOuCriarCarrinho
      rw [hc]
    have hEq : adicionarItem s dto = (transacaoAdicionar s dto c.id,
        Except.ok (formatarCarrinho (transacaoAdicionar s dto c.id) c)) := by
      unfold adicionarItem
      simp only [hv, Bool.not_true, Bool.false_eq_true, if_false, hsc]
      rw [hchk]
    rw [hEq]
    show findItem (upsertItem (decrementarEstoque s dto.produtoId dto.quantidade)
        dto.produtoId c.id dto.quantidade) dto.produtoId c.id = _ ∧
      (upsertItem (decrementarEstoque s dto.produtoId dto.quantidade)
        dto.produtoId c.id dto.quantidade).itens.length = _
    have hfd : findItem (decrementarEstoque s dto.produtoId dto.quantidade)
        dto.produtoId c.id = some i := by
      rw [findItem_congr (itens_decrementar s dto.produtoId dto.quantidade)]
      exact hi
    have hu := findItem_upsert_incrementa
      (decrementarEstoque s dto.produtoId dto.quantidade)
      dto.produtoId c.id dto.quantidade i hfd
    exact ⟨hu.1, hu.2⟩

/-- C7 witness: adding 3 more of product 0 already in the cart with
quantidade 3 yields one line with quantidade 6. -/
theorem C7_linhaUnicaPorProduto_witness :
    findItem (adicionarItem ⟨[⟨0, "Widget", 10, 5⟩], [⟨1, usuarioFixo⟩],
        [⟨2, 3, 0, 1⟩], 3⟩ ⟨0, 3⟩).1 0 1 = some ⟨2, 6, 0, 1⟩ ∧
    (adicionarItem ⟨[⟨0, "Widget", 10, 5⟩], [⟨1, usuarioFixo⟩],
        [⟨2, 3, 0, 1⟩], 3⟩ ⟨0, 3⟩).1.itens.length = 1 :=
  (C7_linhaUnicaPorProduto ⟨[⟨0, "Widget", 10, 5⟩], [⟨1, usuarioFixo⟩],
      [⟨2, 3, 0, 1⟩], 3⟩ (by decide)).2 ⟨0, 3⟩ ⟨1, usuarioFixo⟩ ⟨2, 3, 0, 1⟩
    (by decide) rfl rfl rfl

/-- C8: for a product with no cart line and a quantidade within available
stock, AddItem followed by RemoveItem of the same product succeeds, restores
the product row exactly as it was before the add (in particular its
estoque), and deletes the cart line entirely. -/
theorem C8_idaEVolta (s : Store) (dto : AdicionarItemDto) (p : Produto)
    (hInv : Inv s) (hv : dto.valido = true)
    (hp : findProduto s dto.produtoId = some p)
    (hq : dto.quantidade ≤ p.estoque)
    (hnr : ∀ i ∈ s.itens, i.produtoId ≠ dto.produtoId) :
    ∃ s₁ v₁ s₂ v₂,
      adicionarItem s dto = (s₁, Except.ok v₁) ∧
      removerItem s₁ dto.produtoId = (s₂, Except.ok v₂) ∧
      findProduto s₂ dto.produtoId = some p ∧
      ∀ i ∈ s₂.itens, i.produtoId ≠ dto.produtoId := by
  have hInv0 : Inv (obterOuCriarCarrinho s).1 := inv_obterOuCriar s hInv
  have hp0 : findProduto (obterOuCriarCarrinho s).1 dto.produtoId = some p := by
    rw [findProduto_congr (produtos_obterOuCriar s)]
    exact hp
  have hchk : checagemAdicionar (obterOuCriarCarrinho s).1 dto = none :=
    checagem_passa _ dto p hp0 hq
  set t : Store := (obterOuCriarCarrinho s).1 with ht
  set c : Carrinho := (obterOuCriarCarrinho s).2 with hcdef
  set x : ItemCarrinho := ⟨t.nextId, dto.quantidade, dto.produtoId, c.id⟩ with hx
  set sA : Store := transacaoAdicionar t dto c.id with hsA
  have hAdd : adicionarItem s dto = (sA, Except.ok (formatarCarrinho sA c)) := by
    unfold adicionarItem
    simp only [hv, Bool.not_true, Bool.false_eq_true, if_false]
    rw [hchk]
  have hfiD : findItem (decrementarEstoque t dto.produtoId dto.quantidade)
      dto.produtoId c.id = none := by
    rw [findItem_congr (itens_decrementar t dto.produtoId dto.quantidade)]
    rw [findItem_congr (itens_obterOuCriar s)]
    rw [findItem_eq_none_iff]
    intro i hi hcontra
    exact hnr i hi hcontra.1
  have hAitens : sA.itens = s.itens ++ [x] := by
    rw [hsA]
    unfold transacaoAdicionar upsertItem
    simp only [hfiD]
    rw [show (decrementarEstoque t dto.produtoId dto.quantidade).itens = t.itens from rfl,
      itens_obterOuCriar s]
    rfl
  have hAprod : sA.produtos
      = (decrementarEstoque t dto.produtoId dto.quantidade).produtos := by
    rw [hsA]
    exact produtos_upsert _ _ _ _
  have hAcar : sA.carrinhos = t.carrinhos := by
    rw [hsA]
    exact carrinhos_upsert _ _ _ _
  have hfc2 : findCarrinho sA = some c := by
    rw [findCarrinho_congr hAcar]
    exact findCarrinho_obterOuCriar s
  have hsc2 : obterOuCriarCarrinho sA = (sA, c) := by
    unfold obterOuCriarCarrinho
    rw [hfc2]
  have hfi2 : findItem sA dto.produtoId c.id = some x := by
    unfold findItem
    rw [hAitens, List.find?_append]
    have h1 : s.itens.find?
        (fun i => i.produtoId == dto.produtoId && i.carrinhoId == c.id) = none := by
      rw [List.find?_eq_none]
      intro i hi
      simp only [Bool.and_eq_true, beq_iff_eq, not_and]
      intro hpid
      exact absurd hpid (hnr i hi)
    rw [h1]
    show ([x] : List ItemCarrinho).find?
      (fun i => i.produtoId == dto.produtoId && i.carrinhoId == c.id) = some x
    rw [List.find?_cons_of_pos]
    simp [hx]
  have hRem : removerItem sA dto.produtoId
      = (transacaoRemover sA dto.produtoId x,
         Except.ok (formatarCarrinho (transacaoRemover sA dto.produtoId x) c)) := by
    unfold removerItem
    simp only [hsc2]
    rw [hfi2]
  have hfindA : findProduto sA dto.produtoId
      = some { p with estoque := p.estoque - dto.quantidade } := by
    rw [findProduto_congr hAprod]
    exact findProduto_decrementar_self t dto.produtoId dto.quantidade p hp0
  have hRfind : findProduto (transacaoRemover sA dto.produtoId x) dto.produtoId
      = some p := by
    have h2 := findProduto_incrementar_self sA dto.produtoId dto.quantidade
      { p with estoque := p.estoque - dto.quantidade } hfindA
    have h3 : findProduto (transacaoRemover sA dto.produtoId x) dto.produtoId
        = findProduto (incrementarEstoque sA dto.produtoId dto.quantidade)
            dto.produtoId := by
      refine findProduto_congr ?_ dto.produtoId
      rfl
    rw [h3, h2]
    show some ({ p with estoque := p.estoque - dto.quantidade + dto.quantidade }) = some p
    have harith : p.estoque - dto.quantidade + dto.quantidade = p.estoque := by ring
    rw [harith]
  have hRitens : ∀ i ∈ (transacaoRemover sA dto.produtoId x).itens,
      i.produtoId ≠ dto.produtoId := by
    intro i hi
    have hi' : i ∈ sA.itens.filter (fun j => j.id != x.id) := hi
    have hmem := List.mem_filter.mp hi'
    have hmem1 : i ∈ s.itens ++ [x] := by
      rw [← hAitens]
      exact hmem.1
    rcases List.mem_append.mp hmem1 with hcase | hcase
    · exact hnr i hcase
    · exfalso
      have hix : i = x := List.mem_singleton.mp hcase
      have := hmem.2
      rw [hix] at this
      simp at this
  exact ⟨sA, formatarCarrinho sA c,
    transacaoRemover sA dto.produtoId x,
    formatarCarrinho (transacaoRemover sA dto.produtoId x) c,
    hAdd, hRem, hRfind, hRitens⟩

/-- C8 witness: AddItem(0, 3) then RemoveItem(0) against a concrete store
with estoque 5 and no cart restores the Widget row. -/
theorem C8_idaEVolta_witness :
    ∃ s₁ v₁ s₂ v₂,
      adicionarItem ⟨[⟨0, "Widget", 10, 5⟩], [], [], 1⟩ ⟨0, 3⟩ = (s₁, Except.ok v₁) ∧
      removerItem s₁ 0 = (s₂, Except.ok v₂) ∧
      findProduto s₂ 0 = some ⟨0, "Widget", 10, 5⟩ ∧
      ∀ i ∈ s₂.itens, i.produtoId ≠ 0 :=
  C8_idaEVolta ⟨[⟨0, "Widget", 10, 5⟩], [], [], 1⟩ ⟨0, 3⟩ ⟨0, "Widget", 10, 5⟩
    (by decide) (by decide) rfl (by decide) (by decide)

end AluraCart
